import Mathlib

/-!
Verification development for the bme280-exporter program (src/main.rs).

The program is a small metrics exporter: `main` opens an I2C bus, creates a
BME280 sensor session at address 0x77, initialises and configures it, and
serves `GET /metrics`. The handler locks a mutex around the sensor session,
performs `take_forced_measurement()?` then `read_sample()?`, writes each
present channel into a Prometheus gauge, and returns the rendered registry.

We embed the handler's data flow as pure Lean functions and the lock
discipline of two concurrent handler invocations as a small transition
system. Sensor channel values carry no arithmetic in the program (they are
only moved from the sensor into gauges), so we model them as rationals.
-/

namespace Bme280Exporter

/-- A sensor reading, as produced by `read_sample`:
`(Option<f32>, Option<f32>, Option<f32>)` for temperature, pressure and
humidity. The program performs no arithmetic on these values, so we model
the numeric carrier as `Rat`. -/
structure Reading where
  temperature : Option Rat
  pressure : Option Rat
  humidity : Option Rat
deriving DecidableEq, Repr

/-- The state of the metrics registry restricted to the three gauges the
program registers: each gauge holds the last value set, or is unset. -/
structure Registry where
  temperature : Option Rat
  pressure : Option Rat
  humidity : Option Rat
deriving DecidableEq, Repr

/-- Registry state at startup: gauges registered but not yet written. -/
def Registry.initial : Registry :=
  { temperature := none, pressure := none, humidity := none }

/-- The gauge-update section of the `metrics` handler (src/main.rs lines
99-109): for each channel of the reading, `if let Some(v) = channel` set the
gauge of the same name; absent channels perform no write. -/
def applyReading (reg : Registry) (r : Reading) : Registry :=
  let reg1 := match r.temperature with
    | some t => { reg with temperature := some t }
    | none => reg
  let reg2 := match r.pressure with
    | some p => { reg1 with pressure := some p }
    | none => reg1
  match r.humidity with
    | some h => { reg2 with humidity := some h }
    | none => reg2

/-- Modelled from the spec: the metrics registry collaborator's `render`
(the `PrometheusHandle.render` call, whose implementation is not part of
this repository). Per the spec it emits one line per set gauge, in the form
`<gauge_name> <numeric_value>`; gauges never written are absent. The
optional `# HELP`/`# TYPE` metadata lines are omitted from the model. -/
def renderLines (reg : Registry) : List String :=
  (match reg.temperature with
    | some t => ["temperature " ++ toString t]
    | none => []) ++
  (match reg.pressure with
    | some p => ["pressure " ++ toString p]
    | none => []) ++
  (match reg.humidity with
    | some h => ["humidity " ++ toString h]
    | none => [])

/-- The rendered registry as one text body. -/
def renderText (reg : Registry) : String :=
  String.intercalate "\x0a" (renderLines reg)

/-- A sensor/bus error as surfaced by the bme280 driver, carrying its
human-readable description (what `{:?}` prints for the wrapped error). -/
structure SensorError where
  description : String
deriving DecidableEq, Repr

/-- A sensor session: the number of measurement cycles performed so far,
and the scripted outcome of each cycle's trigger and read steps. -/
structure Session where
  next : Nat
  triggerResults : Nat → Except SensorError Unit
  sampleResults : Nat → Except SensorError Reading

/-- One measurement cycle on the session (src/main.rs lines 96-97):
`take_forced_measurement()?` then `read_sample()?`. A failed trigger
short-circuits; either way one fresh cycle is consumed. -/
def Session.takeReading (s : Session) : Session × Except SensorError Reading :=
  ({ s with next := s.next + 1 },
   match s.triggerResults s.next with
   | .error e => .error e
   | .ok _ => s.sampleResults s.next)

/-- The HTTP response the handler produces: status code and body. -/
structure HttpResponse where
  status : Nat
  body : String
deriving DecidableEq, Repr

/-- The `metrics` handler's data flow (src/main.rs lines 93-112 together
with `AppError.into_response`, lines 116-124): take a reading; on error
return status 500 with body `format!("kapot: \x7b:?\x7d", err)` and leave
the registry untouched; on success update the gauges for present channels
and return status 200 with the rendered registry. -/
def handleRequest (s : Session) (reg : Registry) :
    Session × Registry × HttpResponse :=
  let res := s.takeReading
  match res.2 with
  | .error e => (res.1, reg, { status := 500, body := "kapot: " ++ e.description })
  | .ok r =>
      let reg2 := applyReading reg r
      (res.1, reg2, { status := 200, body := renderText reg2 })

/-- The `MeasurementTimeout` error the sensor driver reports when the
forced-mode poll budget is exhausted. -/
def measurementTimeout : SensorError := { description := "MeasurementTimeout" }

/-- Modelled from the spec: the bounded number of data-ready poll attempts
the sensor driver makes during one forced measurement (its implementation
lives in the bme280 driver crate, not in this repository). The spec fixes
no number, only that it is bounded. -/
def pollBudget : Nat := 16

/-- Modelled from the spec: the data-ready poll loop of a forced
measurement. `ready k` is whether the sensor reports data-ready on the
k-th poll; `fuel` is the remaining attempt budget. Exhausting the budget
fails with `MeasurementTimeout`. -/
def pollForReady (ready : Nat → Bool) : Nat → Nat → Except SensorError Unit
  | _, 0 => .error measurementTimeout
  | k, fuel + 1 => if ready k then .ok () else pollForReady ready (k + 1) fuel

/-- Modelled from the spec: `take_reading` in forced mode — trigger, then
poll for data-ready within the bounded budget. -/
def takeForcedMeasurement (ready : Nat → Bool) : Except SensorError Unit :=
  pollForReady ready 0 pollBudget

/-- Observable startup events of `main`, in program order. -/
inductive BootEvent where
  | busOpened
  | sensorInitialized
  | sensorConfigured
  | serving
deriving DecidableEq, Repr

/-- The startup sequence of `main` (src/main.rs lines 60-90): open the I2C
bus, initialise the sensor, apply the sampling configuration, bind the
listener and serve. Each step's outcome is an input; the first failing
step's `.expect` aborts the process there (modelled as an error result),
and the `serving` event is reached only after every step succeeded. The
second component is the process outcome: `.ok` means the server is
running, `.error` means the process aborted with the given diagnostic. -/
def mainBoot (busOpen sensorInit sensorConfig listenerBind :
    Except String Unit) : List BootEvent × Except String Unit :=
  match busOpen with
  | .error e => ([], .error e)
  | .ok _ =>
    match sensorInit with
    | .error e => ([.busOpened], .error e)
    | .ok _ =>
      match sensorConfig with
      | .error e => ([.busOpened, .sensorInitialized], .error e)
      | .ok _ =>
        match listenerBind with
        | .error e =>
            ([.busOpened, .sensorInitialized, .sensorConfigured], .error e)
        | .ok _ =>
            ([.busOpened, .sensorInitialized, .sensorConfigured, .serving],
             .ok ())

/-- The process exit code for a startup outcome: a Rust `.expect` failure
panics, which terminates the process with the nonzero code 101. -/
def exitCode : Except String Unit → Nat
  | .error _ => 101
  | .ok _ => 0

/-- Oversampling settings of the bme280 driver. -/
inductive Oversampling where
  | skip
  | oversample1
  | oversample2
  | oversample4
  | oversample8
  | oversample16
deriving DecidableEq, Repr

/-- IIR filter settings of the bme280 driver. -/
inductive Filter where
  | off
  | filter2
  | filter4
  | filter8
  | filter16
deriving DecidableEq, Repr

/-- Sensor operating modes of the bme280 driver. -/
inductive SensorMode where
  | sleep
  | forced
  | normal
deriving DecidableEq, Repr

/-- The sampling configuration record handed to
`set_sampling_configuration`. -/
structure Configuration where
  temperatureOversampling : Oversampling
  pressureOversampling : Oversampling
  humidityOversampling : Oversampling
  filter : Filter
  sensorMode : SensorMode
deriving DecidableEq, Repr

/-- `Configuration::default()`: everything disabled, sensor asleep. -/
def Configuration.defaultConfig : Configuration :=
  { temperatureOversampling := .skip
    pressureOversampling := .skip
    humidityOversampling := .skip
    filter := .off
    sensorMode := .sleep }

def Configuration.withFilter (c : Configuration) (f : Filter) : Configuration :=
  { c with filter := f }

def Configuration.withTemperatureOversampling (c : Configuration)
    (o : Oversampling) : Configuration :=
  { c with temperatureOversampling := o }

def Configuration.withPressureOversampling (c : Configuration)
    (o : Oversampling) : Configuration :=
  { c with pressureOversampling := o }

def Configuration.withHumidityOversampling (c : Configuration)
    (o : Oversampling) : Configuration :=
  { c with humidityOversampling := o }

def Configuration.withSensorMode (c : Configuration)
    (m : SensorMode) : Configuration :=
  { c with sensorMode := m }

/-- The command line accepted by the program (src/main.rs lines 20-30):
one positional I2C device path, an optional bind host (default 127.0.0.1)
and an optional bind port (default 3000). Nothing else is accepted. -/
structure Cli where
  i2cDevicePath : String
  host : Nat × Nat × Nat × Nat
  port : Nat
deriving DecidableEq, Repr

/-- The I2C address `main` passes to `Bme280::new_with_address`
(src/main.rs line 61), as a function of the parsed command line. -/
def mainI2cAddress (_cli : Cli) : Nat := 0x77

/-- The sampling configuration `main` builds and applies (src/main.rs
lines 67-76), as a function of the parsed command line. -/
def mainSensorConfiguration (_cli : Cli) : Configuration :=
  ((((Configuration.defaultConfig.withFilter .filter4).withTemperatureOversampling
      .oversample8).withPressureOversampling
      .oversample8).withHumidityOversampling
      .oversample8).withSensorMode .forced

/-- Program counter of one in-flight `metrics` handler invocation
(src/main.rs lines 93-112). The mutex guard is the local `bme280`
binding: it is produced by `lock().await` and dropped when the function
returns, whether by the early `?` returns or at the end of the body. -/
inductive PC where
  | start      -- before `app_state.bme280.lock().await`
  | locked     -- guard held; about to run `take_forced_measurement()`
  | triggered  -- trigger succeeded; about to run `read_sample()`
  | sampled    -- sample read; about to run the gauge updates
  | updated    -- gauges updated; about to run `prometheus.render()`
  | rendered   -- render done; about to return (dropping the guard)
  | done       -- handler returned; guard dropped
deriving DecidableEq, Repr

/-- Whether a handler at this program point holds the mutex guard: every
point strictly between acquiring the lock and returning. -/
def PC.holdsLock : PC → Bool
  | .start => false
  | .done => false
  | _ => true

/-- Whether a handler at this program point is inside the measurement
protocol (`take_forced_measurement` followed by `read_sample`). -/
def PC.inReading : PC → Bool
  | .locked => true
  | .triggered => true
  | _ => false

/-- State of two concurrently in-flight `GET /metrics` requests: who (if
anyone) holds the sensor mutex, and each handler's program point. Thread
identifiers are booleans. -/
structure Sys where
  lock : Option Bool
  pc : Bool → PC

/-- Replace one thread's program counter. -/
def Sys.setPc (s : Sys) (i : Bool) (p : PC) : Sys :=
  { s with pc := fun j => if j = i then p else s.pc j }

/-- Both handlers about to run, lock free. -/
def Sys.init : Sys := { lock := none, pc := fun _ => .start }

/-- Interleaved execution steps of the two handler invocations, following
src/main.rs lines 93-112. `lock().await` succeeds only when the mutex is
free; the guard is dropped exactly when the handler returns — at the `?`
early returns on a failed trigger or read, or after `render()` at the end
of the body. -/
inductive Step : Sys → Sys → Prop where
  | acquire (s : Sys) (i : Bool) (hpc : s.pc i = .start) (hl : s.lock = none) :
      Step s { (s.setPc i .locked) with lock := some i }
  | triggerOk (s : Sys) (i : Bool) (hpc : s.pc i = .locked) :
      Step s (s.setPc i .triggered)
  | triggerErr (s : Sys) (i : Bool) (hpc : s.pc i = .locked) :
      Step s { (s.setPc i .done) with lock := none }
  | readOk (s : Sys) (i : Bool) (hpc : s.pc i = .triggered) :
      Step s (s.setPc i .sampled)
  | readErr (s : Sys) (i : Bool) (hpc : s.pc i = .triggered) :
      Step s { (s.setPc i .done) with lock := none }
  | update (s : Sys) (i : Bool) (hpc : s.pc i = .sampled) :
      Step s (s.setPc i .updated)
  | render (s : Sys) (i : Bool) (hpc : s.pc i = .updated) :
      Step s (s.setPc i .rendered)
  | finish (s : Sys) (i : Bool) (hpc : s.pc i = .rendered) :
      Step s { (s.setPc i .done) with lock := none }

/-- States reachable from the initial state by interleaved steps. -/
inductive Reachable : Sys → Prop where
  | init : Reachable Sys.init
  | step {s t : Sys} (hr : Reachable s) (hs : Step s t) : Reachable t

/-- The lock-ownership invariant: the mutex records owner `i` exactly when
handler `i` is at a program point inside the guard's scope. -/
def LockInv (s : Sys) : Prop :=
  ∀ i : Bool, s.lock = some i ↔ (s.pc i).holdsLock = true

theorem lockInv_init : LockInv Sys.init := by
  intro i
  simp [Sys.init, PC.holdsLock]

theorem lockInv_step {s t : Sys} (hinv : LockInv s) (hs : Step s t) :
    LockInv t := by
  cases hs with
  | acquire i hpc hl =>
      intro j
      by_cases hj : j = i
      · subst hj
        simp [Sys.setPc, PC.holdsLock]
      · have hj' : ¬ some i = some j := by
          intro hcontra
          exact hj (Option.some.inj hcontra).symm
        have hlj : ¬ s.lock = some j := by
          rw [hl]
          simp
        have := (hinv j).not.mp hlj
        simp only [Sys.setPc]
        constructor
        · intro hcontra
          exact absurd hcontra hj'
        · intro hhold
          exfalso
          apply this
          simpa [hj] using hhold
  | triggerOk i hpc =>
      intro j
      by_cases hj : j = i
      · subst hj
        have := hinv j
        rw [hpc] at this
        simp only [Sys.setPc]
        simpa [PC.holdsLock] using this
      · have := hinv j
        simp only [Sys.setPc]
        simpa [hj] using this
  | triggerErr i hpc =>
      intro j
      by_cases hj : j = i
      · subst hj
        simp [Sys.setPc, PC.holdsLock]
      · have := hinv j
        have hown : s.lock = some j → False := by
          intro hopp
          have hhold := (hinv j).mp hopp
          have hholdi : (s.pc i).holdsLock = true := by
            rw [hpc]; rfl
          have hlocki := (hinv i).mpr hholdi
          rw [hopp] at hlocki
          exact hj (Option.some.inj hlocki)
        simp only [Sys.setPc]
        constructor
        · intro hcontra
          simp at hcontra
        · intro hhold
          exfalso
          apply hown
          apply (hinv j).mpr
          simpa [hj] using hhold
  | readOk i hpc =>
      intro j
      by_cases hj : j = i
      · subst hj
        have := hinv j
        rw [hpc] at this
        simp only [Sys.setPc]
        simpa [PC.holdsLock] using this
      · have := hinv j
        simp only [Sys.setPc]
        simpa [hj] using this
  | readErr i hpc =>
      intro j
      by_cases hj : j = i
      · subst hj
        simp [Sys.setPc, PC.holdsLock]
      · have hown : s.lock = some j → False := by
          intro hopp
          have hholdi : (s.pc i).holdsLock = true := by
            rw [hpc]; rfl
          have hlocki := (hinv i).mpr hholdi
          rw [hopp] at hlocki
          exact hj (Option.some.inj hlocki)
        simp only [Sys.setPc]
        constructor
        · intro hcontra
          simp at hcontra
        · intro hhold
          exfalso
          apply hown
          apply (hinv j).mpr
          simpa [hj] using hhold
  | update i hpc =>
      intro j
      by_cases hj : j = i
      · subst hj
        have := hinv j
        rw [hpc] at this
        simp only [Sys.setPc]
        simpa [PC.holdsLock] using this
      · have := hinv j
        simp only [Sys.setPc]
        simpa [hj] using this
  | render i hpc =>
      intro j
      by_cases hj : j = i
      · subst hj
        have := hinv j
        rw [hpc] at this
        simp only [Sys.setPc]
        simpa [PC.holdsLock] using this
      · have := hinv j
        simp only [Sys.setPc]
        simpa [hj] using this
  | finish i hpc =>
      intro j
      by_cases hj : j = i
      · subst hj
        simp [Sys.setPc, PC.holdsLock]
      · have hown : s.lock = some j → False := by
          intro hopp
          have hholdi : (s.pc i).holdsLock = true := by
            rw [hpc]; rfl
          have hlocki := (hinv i).mpr hholdi
          rw [hopp] at hlocki
          exact hj (Option.some.inj hlocki)
        simp only [Sys.setPc]
        constructor
        · intro hcontra
          simp at hcontra
        · intro hhold
          exfalso
          apply hown
          apply (hinv j).mpr
          simpa [hj] using hhold

theorem lockInv_reachable {s : Sys} (h : Reachable s) : LockInv s := by
  induction h with
  | init => exact lockInv_init
  | step _ hs ih => exact lockInv_step ih hs

/-! ## Helper lemmas -/

theorem applyReading_temperature (reg : Registry) (r : Reading) :
    (applyReading reg r).temperature = r.temperature.or reg.temperature := by
  obtain ⟨t, p, h⟩ := r
  cases t <;> cases p <;> cases h <;> rfl

theorem applyReading_pressure (reg : Registry) (r : Reading) :
    (applyReading reg r).pressure = r.pressure.or reg.pressure := by
  obtain ⟨t, p, h⟩ := r
  cases t <;> cases p <;> cases h <;> rfl

theorem applyReading_humidity (reg : Registry) (r : Reading) :
    (applyReading reg r).humidity = r.humidity.or reg.humidity := by
  obtain ⟨t, p, h⟩ := r
  cases t <;> cases p <;> cases h <;> rfl

theorem mem_renderLines_temperature (reg : Registry) (v : Rat)
    (h : reg.temperature = some v) :
    ("temperature " ++ toString v) ∈ renderLines reg := by
  simp [renderLines, h]

theorem mem_renderLines_pressure (reg : Registry) (v : Rat)
    (h : reg.pressure = some v) :
    ("pressure " ++ toString v) ∈ renderLines reg := by
  simp [renderLines, h]

theorem mem_renderLines_humidity (reg : Registry) (v : Rat)
    (h : reg.humidity = some v) :
    ("humidity " ++ toString v) ∈ renderLines reg := by
  simp [renderLines, h]

/-! ## Claims -/

/-- C2: whenever the measurement fails (trigger or read step), the handler
responds with status 500 and body `"kapot: "` followed by the error's
description, and the registry is returned unchanged. -/
theorem C2_failure_responds_500_and_preserves_registry
    (s : Session) (reg : Registry) (e : SensorError)
    (h : s.takeReading.2 = .error e) :
    handleRequest s reg =
      (s.takeReading.1, reg,
        { status := 500, body := "kapot: " ++ e.description }) := by
  simp only [handleRequest, h]

/-- Witness for C2 at a session whose trigger step fails. -/
theorem C2_witness :
    handleRequest
        { next := 0,
          triggerResults := fun _ => .error { description := "i2c bus error" },
          sampleResults := fun _ => .ok { temperature := none, pressure := none, humidity := none } }
        Registry.initial =
      ({ next := 1,
         triggerResults := fun _ => .error { description := "i2c bus error" },
         sampleResults := fun _ => .ok { temperature := none, pressure := none, humidity := none } },
       Registry.initial,
       { status := 500, body := "kapot: " ++ "i2c bus error" }) :=
  C2_failure_responds_500_and_preserves_registry _ _
    { description := "i2c bus error" } rfl

/-- C3: a channel absent from the Reading leaves the corresponding gauge
untouched by `apply`, and a subsequent render still shows the previously
set value for that gauge. -/
theorem C3_absent_channels_preserve_gauges (reg : Registry) (r : Reading) :
    (r.temperature = none →
      (applyReading reg r).temperature = reg.temperature ∧
      ∀ v, reg.temperature = some v →
        ("temperature " ++ toString v) ∈ renderLines (applyReading reg r)) ∧
    (r.pressure = none →
      (applyReading reg r).pressure = reg.pressure ∧
      ∀ v, reg.pressure = some v →
        ("pressure " ++ toString v) ∈ renderLines (applyReading reg r)) ∧
    (r.humidity = none →
      (applyReading reg r).humidity = reg.humidity ∧
      ∀ v, reg.humidity = some v →
        ("humidity " ++ toString v) ∈ renderLines (applyReading reg r)) := by
  refine ⟨fun hnone => ?_, fun hnone => ?_, fun hnone => ?_⟩
  · have hfield : (applyReading reg r).temperature = reg.temperature := by
      rw [applyReading_temperature, hnone, Option.none_or]
    exact ⟨hfield, fun v hv =>
      mem_renderLines_temperature _ v (hfield.trans hv)⟩
  · have hfield : (applyReading reg r).pressure = reg.pressure := by
      rw [applyReading_pressure, hnone, Option.none_or]
    exact ⟨hfield, fun v hv =>
      mem_renderLines_pressure _ v (hfield.trans hv)⟩
  · have hfield : (applyReading reg r).humidity = reg.humidity := by
      rw [applyReading_humidity, hnone, Option.none_or]
    exact ⟨hfield, fun v hv =>
      mem_renderLines_humidity _ v (hfield.trans hv)⟩

/-- Witness for C3: a reading with every channel absent leaves a fully set
registry's temperature gauge unchanged and still rendered. -/
theorem C3_witness :
    (applyReading
        { temperature := some 22, pressure := some 101325, humidity := some 45 }
        { temperature := none, pressure := none, humidity := none }).temperature =
      some 22 ∧
    ("temperature " ++ toString (22 : Rat)) ∈
      renderLines (applyReading
        { temperature := some 22, pressure := some 101325, humidity := some 45 }
        { temperature := none, pressure := none, humidity := none }) := by
  have h := (C3_absent_channels_preserve_gauges
      { temperature := some 22, pressure := some 101325, humidity := some 45 }
      { temperature := none, pressure := none, humidity := none }).1 rfl
  exact ⟨h.1.trans rfl, h.2 22 rfl⟩

/-- C6: a channel present in the Reading is, after `apply` then `render`,
shown with its exact numeric value on the line of the gauge of the same
name. -/
theorem C6_present_channels_rendered_exactly (reg : Registry) (r : Reading) :
    (∀ t, r.temperature = some t →
      ("temperature " ++ toString t) ∈ renderLines (applyReading reg r)) ∧
    (∀ p, r.pressure = some p →
      ("pressure " ++ toString p) ∈ renderLines (applyReading reg r)) ∧
    (∀ h, r.humidity = some h →
      ("humidity " ++ toString h) ∈ renderLines (applyReading reg r)) := by
  refine ⟨fun t ht => ?_, fun p hp => ?_, fun h hh => ?_⟩
  · refine mem_renderLines_temperature _ t ?_
    rw [applyReading_temperature, ht]
    rfl
  · refine mem_renderLines_pressure _ p ?_
    rw [applyReading_pressure, hp]
    rfl
  · refine mem_renderLines_humidity _ h ?_
    rw [applyReading_humidity, hh]
    rfl

/-- Witness for C6 at the reading (22, 101325, 45) applied to the fresh
registry. -/
theorem C6_witness :
    ("temperature " ++ toString (22 : Rat)) ∈
      renderLines (applyReading Registry.initial
        { temperature := some 22, pressure := some 101325, humidity := some 45 }) ∧
    ("pressure " ++ toString (101325 : Rat)) ∈
      renderLines (applyReading Registry.initial
        { temperature := some 22, pressure := some 101325, humidity := some 45 }) ∧
    ("humidity " ++ toString (45 : Rat)) ∈
      renderLines (applyReading Registry.initial
        { temperature := some 22, pressure := some 101325, humidity := some 45 }) := by
  obtain ⟨h1, h2, h3⟩ := C6_present_channels_rendered_exactly Registry.initial
    { temperature := some 22, pressure := some 101325, humidity := some 45 }
  exact ⟨h1 22 rfl, h2 101325 rfl, h3 45 rfl⟩

/-- C10: the sampling configuration written to the sensor is the fixed
constant (forced mode, 8x oversampling on all channels, filter
coefficient 4) and the sensor is addressed at I2C address 0x77, for every
parsed command line. -/
theorem C10_fixed_sensor_configuration (cli : Cli) :
    mainI2cAddress cli = 0x77 ∧
    mainSensorConfiguration cli =
      { temperatureOversampling := .oversample8
        pressureOversampling := .oversample8
        humidityOversampling := .oversample8
        filter := .filter4
        sensorMode := .forced } :=
  ⟨rfl, rfl⟩

/-- Witness for C10 at a concrete command line. -/
theorem C10_witness :
    mainI2cAddress
        { i2cDevicePath := "/dev/i2c-1", host := (127, 0, 0, 1), port := 3000 } =
      0x77 ∧
    mainSensorConfiguration
        { i2cDevicePath := "/dev/i2c-1", host := (127, 0, 0, 1), port := 3000 } =
      { temperatureOversampling := .oversample8
        pressureOversampling := .oversample8
        humidityOversampling := .oversample8
        filter := .filter4
        sensorMode := .forced } :=
  C10_fixed_sensor_configuration
    { i2cDevicePath := "/dev/i2c-1", host := (127, 0, 0, 1), port := 3000 }

theorem PC.inReading_imp_holdsLock (p : PC) :
    p.inReading = true → p.holdsLock = true := by
  cases p <;> simp [PC.inReading, PC.holdsLock]

/-- Thread `false` has acquired the sensor mutex. -/
def sysLocked : Sys := { (Sys.init.setPc false .locked) with lock := some false }

/-- Thread `false` past a successful `take_forced_measurement`. -/
def sysTriggered : Sys := sysLocked.setPc false .triggered

/-- Thread `false` past a successful `read_sample`. -/
def sysSampled : Sys := sysTriggered.setPc false .sampled

/-- Thread `false` past the gauge updates. -/
def sysUpdated : Sys := sysSampled.setPc false .updated

/-- Thread `false` past `render()`. -/
def sysRendered : Sys := sysUpdated.setPc false .rendered

/-- Thread `false` returned from the handler, dropping the guard. -/
def sysDone : Sys := { (sysRendered.setPc false .done) with lock := none }

theorem reach_sysLocked : Reachable sysLocked :=
  Reachable.step Reachable.init (Step.acquire Sys.init false rfl rfl)

theorem reach_sysTriggered : Reachable sysTriggered :=
  Reachable.step reach_sysLocked (Step.triggerOk sysLocked false rfl)

theorem reach_sysSampled : Reachable sysSampled :=
  Reachable.step reach_sysTriggered (Step.readOk sysTriggered false rfl)

theorem reach_sysUpdated : Reachable sysUpdated :=
  Reachable.step reach_sysSampled (Step.update sysSampled false rfl)

theorem reach_sysRendered : Reachable sysRendered :=
  Reachable.step reach_sysUpdated (Step.render sysUpdated false rfl)

theorem reach_sysDone : Reachable sysDone :=
  Reachable.step reach_sysRendered (Step.finish sysRendered false rfl)

/-- C1: in every reachable state of two concurrently in-flight `GET
/metrics` requests, at most one handler is inside the `take_reading`
protocol (`take_forced_measurement` followed by `read_sample`): the sensor
mutex totally orders the measurement cycles. -/
theorem C1_take_reading_mutual_exclusion (s : Sys) (h : Reachable s) :
    ¬ ((s.pc false).inReading = true ∧ (s.pc true).inReading = true) := by
  rintro ⟨h0, h1⟩
  have hinv := lockInv_reachable h
  have l0 : s.lock = some false :=
    (hinv false).mpr (PC.inReading_imp_holdsLock _ h0)
  have l1 : s.lock = some true :=
    (hinv true).mpr (PC.inReading_imp_holdsLock _ h1)
  rw [l0] at l1
  exact Bool.false_ne_true (Option.some.inj l1)

/-- Witness for C1 at the initial state. -/
theorem C1_witness :
    ¬ ((Sys.init.pc false).inReading = true ∧ (Sys.init.pc true).inReading = true) :=
  C1_take_reading_mutual_exclusion Sys.init Reachable.init

/-- C4 counterexample: the claim that the sensor mutex is released before
the registry gauges are updated is false — `sysUpdated` is a reachable
state in which thread `false` has finished its gauge updates while still
owning the lock (in the program the guard is the local `bme280` binding,
dropped only when the handler returns). -/
theorem C4_counterexample :
    ¬ (∀ s : Sys, Reachable s → ∀ i : Bool,
        s.pc i = .updated → s.lock ≠ some i) := by
  intro hclaim
  exact hclaim sysUpdated reach_sysUpdated false rfl rfl

/-- C4 (amended): the guard is scoped to the whole handler body, not to
the `take_reading` call alone — in every reachable state, a handler that
is updating the gauges or has just rendered still owns the sensor mutex;
the guard is released only when the handler returns. -/
theorem C4_guard_held_through_update_and_render (s : Sys) (h : Reachable s)
    (i : Bool) (hpc : s.pc i = .updated ∨ s.pc i = .rendered) :
    s.lock = some i := by
  have hinv := lockInv_reachable h
  refine (hinv i).mpr ?_
  rcases hpc with hpc | hpc <;> rw [hpc] <;> rfl

/-- Witness for the amended C4 at the reachable state `sysUpdated`. -/
theorem C4_witness : sysUpdated.lock = some false :=
  C4_guard_held_through_update_and_render sysUpdated reach_sysUpdated false
    (Or.inl rfl)

/-- C5: in every reachable state, a handler that has returned — whether
through the success path or the early error returns — no longer owns the
sensor mutex: no exit path leaks the lock. -/
theorem C5_lock_released_on_every_exit_path (s : Sys) (h : Reachable s)
    (i : Bool) (hdone : s.pc i = .done) : s.lock ≠ some i := by
  intro hl
  have hinv := lockInv_reachable h
  have := (hinv i).mp hl
  rw [hdone] at this
  exact Bool.false_ne_true this

/-- Witness for C5 at the reachable state `sysDone`. -/
theorem C5_witness : sysDone.lock ≠ some false :=
  C5_lock_released_on_every_exit_path sysDone reach_sysDone false rfl

theorem pollForReady_never_ready (ready : Nat → Bool)
    (h : ∀ n, ready n = false) :
    ∀ fuel k, pollForReady ready k fuel = .error measurementTimeout := by
  intro fuel
  induction fuel with
  | zero => intro k; rfl
  | succ n ih =>
      intro k
      rw [pollForReady, h k]
      simpa using ih (k + 1)

/-- C7: a forced measurement whose sensor never reports data-ready fails
with `MeasurementTimeout` after at most the bounded poll budget (the poll
loop is structurally bounded by its fuel), rather than blocking. -/
theorem C7_bounded_poll_times_out (ready : Nat → Bool)
    (h : ∀ n, ready n = false) :
    takeForcedMeasurement ready = .error measurementTimeout :=
  pollForReady_never_ready ready h pollBudget 0

/-- Witness for C7: the constantly-not-ready sensor. -/
theorem C7_witness :
    takeForcedMeasurement (fun _ => false) = .error measurementTimeout :=
  C7_bounded_poll_times_out (fun _ => false) (fun _ => rfl)

/-- C8: if any startup step fails — bus open, sensor init, sensor
configure, or listener bind — the process exits with a nonzero code and
the `serving` event is never reached. -/
theorem C8_startup_failure_is_fatal (b i c l : Except String Unit)
    (h : b.isOk = false ∨ i.isOk = false ∨ c.isOk = false ∨ l.isOk = false) :
    exitCode (mainBoot b i c l).2 ≠ 0 ∧
    BootEvent.serving ∉ (mainBoot b i c l).1 := by
  rcases b with e | u
  · simp [mainBoot, exitCode]
  rcases i with e | u'
  · simp [mainBoot, exitCode]
  rcases c with e | u''
  · simp [mainBoot, exitCode]
  rcases l with e | u'''
  · simp [mainBoot, exitCode]
  · simp [Except.isOk, Except.toBool] at h

/-- Witness for C8: the bus device cannot be opened. -/
theorem C8_witness :
    exitCode (mainBoot (.error "failed to setup i2c bus") (.ok ()) (.ok ())
        (.ok ())).2 ≠ 0 ∧
    BootEvent.serving ∉ (mainBoot (.error "failed to setup i2c bus") (.ok ())
        (.ok ()) (.ok ())).1 :=
  C8_startup_failure_is_fatal (.error "failed to setup i2c bus") (.ok ())
    (.ok ()) (.ok ()) (Or.inl rfl)

/-- C9: every request performs its own fresh measurement cycle — one call
to `handleRequest` advances the session by exactly one cycle, two
successive requests advance it by two, and a successful response body is
the render of the registry updated with this request's own reading, never
a stored copy. -/
theorem C9_each_request_samples_afresh (s : Session) (reg : Registry) :
    (handleRequest s reg).1.next = s.next + 1 ∧
    (handleRequest (handleRequest s reg).1 (handleRequest s reg).2.1).1.next =
      s.next + 2 ∧
    (∀ r, s.takeReading.2 = .ok r →
      (handleRequest s reg).2.2 =
        { status := 200, body := renderText (applyReading reg r) }) := by
  have hnext : ∀ (s' : Session) (reg' : Registry),
      (handleRequest s' reg').1.next = s'.next + 1 := by
    intro s' reg'
    simp only [handleRequest]
    cases s'.takeReading.2 <;> rfl
  refine ⟨hnext s reg, ?_, ?_⟩
  · rw [hnext, hnext]
  · intro r hr
    simp only [handleRequest, hr]

/-- Witness for C9 at a session scripted to succeed with the reading
(22, 101325, 45). -/
theorem C9_witness :
    (handleRequest
        { next := 0,
          triggerResults := fun _ => .ok (),
          sampleResults := fun _ =>
            .ok { temperature := some 22, pressure := some 101325, humidity := some 45 } }
        Registry.initial).2.2 =
      { status := 200,
        body := renderText (applyReading Registry.initial
          { temperature := some 22, pressure := some 101325, humidity := some 45 }) } :=
  (C9_each_request_samples_afresh
      { next := 0,
        triggerResults := fun _ => .ok (),
        sampleResults := fun _ =>
          .ok { temperature := some 22, pressure := some 101325, humidity := some 45 } }
      Registry.initial).2.2
    { temperature := some 22, pressure := some 101325, humidity := some 45 } rfl

end Bme280Exporter
